import Mathlib

/-!
Shallow embedding of `torch/_dynamo/variables/tensor.py` (the tensor-like
variable tracker hierarchy of the dynamo tracing compiler) and proofs of the
specification claims about it.

Python objects are modelled as Lean structures; `None`-able fields become
`Option`; Python exceptions become an explicit `PyError` sum carried in
`Except`; the append-only FX graph and the guard set become an explicit
`GraphState` threaded through the stateful operations.
-/

namespace DynamoTensor

/-- Torch scalar dtypes (the ones the embedded code inspects). -/
inductive Dtype
  | float16 | bfloat16 | float32 | float64
  | uint8 | int8 | int16 | int32 | int64
  | boolT | complex64 | complex128
deriving DecidableEq, Repr

/-- Python `dtype.itemsize`: byte width of one element. -/
def Dtype.itemsize : Dtype → Int
  | .float16 => 2 | .bfloat16 => 2 | .float32 => 4 | .float64 => 8
  | .uint8 => 1 | .int8 => 1 | .int16 => 2 | .int32 => 4 | .int64 => 8
  | .boolT => 1 | .complex64 => 8 | .complex128 => 16

inductive DeviceType
  | cpu | cuda | meta
deriving DecidableEq, Repr

structure Device where
  type : DeviceType
  index : Int := 0
deriving DecidableEq, Repr

inductive Layout
  | strided | sparseCoo | sparseCsr | jagged
deriving DecidableEq, Repr

inductive MemoryFormat
  | contiguousFormat | channelsLast | channelsLast3d
deriving DecidableEq, Repr

/-- Python `torch._prims_common._memory_formats` as iterated by `specialize`. -/
def memoryFormats : List MemoryFormat :=
  [.contiguousFormat, .channelsLast, .channelsLast3d]

/-- A sympy expression, as used inside `torch.SymInt` nodes.  Only the shape
of the free-symbol structure matters for the embedded code. -/
inductive SymExpr
  | intConst (n : Int)
  | sym (name : String)
  | add (a b : SymExpr)
  | mul (a b : SymExpr)
deriving DecidableEq, Repr

def SymExpr.freeSymbols : SymExpr → List String
  | .intConst _ => []
  | .sym n => [n]
  | .add a b => a.freeSymbols ++ b.freeSymbols
  | .mul a b => a.freeSymbols ++ b.freeSymbols

/-- Python `has_free_symbols` on a sympy expression. -/
def SymExpr.hasFreeSymbols (e : SymExpr) : Bool :=
  !e.freeSymbols.isEmpty

/-- Evaluate an expression that has no free symbols; `none` if it does. -/
def SymExpr.evalConst : SymExpr → Option Int
  | .intConst n => some n
  | .sym _ => none
  | .add a b => do pure ((← a.evalConst) + (← b.evalConst))
  | .mul a b => do pure ((← a.evalConst) * (← b.evalConst))

/-- One entry of a tensor's size/stride tuple: either a plain Python `int`
or a `torch.SymInt` wrapping a sympy expression. -/
inductive PySymInt
  | plain (n : Int)
  | symint (e : SymExpr)
deriving DecidableEq, Repr

/-- Python `torch.fx.experimental.symbolic_shapes.is_symbolic`. -/
def PySymInt.isSymbolic : PySymInt → Bool
  | .plain _ => false
  | .symint _ => true

/-- Python `has_free_symbols` on one size/stride entry. -/
def PySymInt.hasFreeSymbols : PySymInt → Bool
  | .plain _ => false
  | .symint e => e.hasFreeSymbols

/-- Python `has_free_symbols` on a size/stride tuple. -/
def hasFreeSymbolsL (l : List PySymInt) : Bool :=
  l.any PySymInt.hasFreeSymbols

/-- Python `int(s)`: the identity on ints, and evaluation of the backing
expression for a `SymInt` (only meaningful when it has no free symbols; all
call sites in the embedded code guard on `has_free_symbols` first). -/
def PySymInt.intCast : PySymInt → Int
  | .plain n => n
  | .symint e => (e.evalConst).getD 0

/-- The Python class a runtime value has (`type(value)`). -/
inductive TensorCls
  | torchTensor
  | torchParameter
  | nestedTensor
  | subclass (name : String)
deriving DecidableEq, Repr

/-- The Python class of the *variable tracker* itself (`type(self)` in
`unpack_var_sequence`): `TensorVariable` or one of its subclasses in this
file. -/
inductive VarKind
  | tensorVariable
  | numpyNdarrayVariable
  | unspecializedPythonVariable
  | fakeItemVariable
deriving DecidableEq, Repr

/-- A concrete `torch.Tensor` as inspected by `TensorVariable.specialize`:
just the metadata surface that function reads. -/
structure Tensor where
  dtype : Dtype
  device : Device
  layout : Layout
  sizes : List PySymInt
  strides : List PySymInt
  storageOffset : PySymInt := .plain 0
  requires_grad : Bool
  is_quantized : Bool
  is_sparse : Bool
  classType : TensorCls := .torchTensor
  /-- Python `torch._C._functorch.is_batchedtensor(value)` -/
  isBatched : Bool := false
  /-- the memory formats for which `value.is_contiguous(memory_format=x)`
  holds -/
  contigFormats : List MemoryFormat := [.contiguousFormat]
deriving DecidableEq, Repr

/-- Python `value.ndim`. -/
def Tensor.ndim (t : Tensor) : Int := t.sizes.length

/-- Python `has_free_symbols(value)` on a whole tensor: free symbols occurring in
its sizes, strides or storage offset. -/
def Tensor.has_free_symbols (t : Tensor) : Bool :=
  hasFreeSymbolsL t.sizes || hasFreeSymbolsL t.strides ||
    t.storageOffset.hasFreeSymbols

/-- The `props` dict produced by `TensorVariable.specialize`.  The outer
`Option` on `size`/`stride`/`is_contiguous` is key *absence*; the inner
`Option` on `is_contiguous` is the explicit `None` sentinel stored for
batched tensors. -/
structure SpecializeProps where
  dtype : Dtype
  device : Device
  layout : Layout
  ndim : Int
  requires_grad : Bool
  is_quantized : Bool
  is_sparse : Bool
  class_type : TensorCls
  size : Option (List PySymInt) := none
  stride : Option (List PySymInt) := none
  is_contiguous : Option (Option (List MemoryFormat)) := none
deriving DecidableEq, Repr

/-- Python `TensorVariable.specialize(value)` (tensor.py lines 136-173). -/
def specialize (value : Tensor) : SpecializeProps :=
  let base : SpecializeProps :=
    { dtype := value.dtype
      device := value.device
      layout := value.layout
      ndim := value.ndim
      requires_grad := value.requires_grad
      is_quantized := value.is_quantized
      is_sparse := value.is_sparse
      class_type := value.classType }
  if value.has_free_symbols then base
  else
    { base with
      size := some (value.sizes.map fun s =>
        if s.isSymbolic then .plain s.intCast else s)
      stride := some value.strides
      is_contiguous :=
        if value.isBatched then some none
        else some (some (memoryFormats.filter (· ∈ value.contigFormats))) }

/-- Provenance of a variable (`self.source`): a guardable expression that
re-derives the runtime binding. -/
inductive Source
  | localSrc (name : String)
  | attrSrc (base : Source) (attr : String)
deriving DecidableEq, Repr

/-- An FX proxy handle.  `item p i` is `p[i]`, the `operator.getitem`
subscript proxy produced by `self.as_proxy()[i]`. -/
inductive Proxy
  | node (id : Nat)
  | item (p : Proxy) (i : Int)
deriving DecidableEq, Repr

/-- Values a `ConstantVariable` can carry in the embedded code paths. -/
inductive ConstValue
  | intV (n : Int)
  | boolV (b : Bool)
  | strV (s : String)
  | noneV
  | intTupleV (l : List Int)
  | dtypeV (d : Dtype)
  | deviceV (d : Device)
  | layoutV (l : Layout)
deriving DecidableEq, Repr

/-- Python truthiness of a constant value. -/
def ConstValue.truthy : ConstValue → Bool
  | .intV n => n != 0
  | .boolV b => b
  | .strV s => !(s.isEmpty)
  | .noneV => false
  | .intTupleV l => !l.isEmpty
  | .dtypeV _ => true
  | .deviceV _ => true
  | .layoutV _ => true

/-- The scalar `sym_num` argument of `SymNodeVariable.create`: a plain
Python `int`/`bool`, a `sympy.Integer`, or a `torch.SymInt`-like object
wrapping an expression. -/
inductive SymVal
  | pyInt (n : Int)
  | pyBool (b : Bool)
  | sympyInt (n : Int)
  | symNode (e : SymExpr)
deriving DecidableEq, Repr

/-- Python `has_free_symbols` on such a scalar. -/
def SymVal.hasFreeSymbols : SymVal → Bool
  | .pyInt _ => false
  | .pyBool _ => false
  | .sympyInt _ => false
  | .symNode e => e.hasFreeSymbols

/-- Python `isinstance(sym_num, (sympy.Integer, int, bool))`. -/
def SymVal.isPlainConst : SymVal → Bool
  | .pyInt _ => true
  | .pyBool _ => true
  | .sympyInt _ => true
  | .symNode _ => false

/-- The oracle's example value attached to a freshly created proxy node
(`wrap_fx_proxy` consults it to pick the variable kind). -/
inductive ExampleVal
  | sizesEx (l : List PySymInt)
  | symIntEx (s : PySymInt)
  | unknownEx
deriving DecidableEq, Repr

/-- The fake tensor recorded as `proxy.node.meta["example_value"]` of a
tensor variable: the metadata surface the handlers read. -/
structure FakeTensor where
  sizes : List PySymInt
  strides : List PySymInt
deriving DecidableEq, Repr

/-- A `TensorVariable`: static metadata fields (absent = `None`) plus proxy,
provenance and the node's recorded example value. -/
structure TensorVar where
  proxy : Proxy := .node 0
  dtype : Option Dtype := none
  device : Option Device := none
  layout : Option Layout := none
  ndim : Option Int := none
  size : Option (List Int) := none
  stride : Option (List Int) := none
  requires_grad : Option Bool := none
  is_quantized : Option Bool := none
  is_contiguous : Option (List MemoryFormat) := none
  is_sparse : Option Bool := none
  class_type : TensorCls := .torchTensor
  source : Option Source := none
  /-- Python `self.proxy.node.meta.get("example_value")` -/
  exampleValue : Option FakeTensor := none
  /-- Python `type(self)`: which variable-tracker class this record stands for -/
  varClass : VarKind := .tensorVariable
deriving DecidableEq, Repr

/-- Variable trackers as they appear as arguments and results of the
embedded handlers. -/
inductive VT
  | constV (c : ConstValue)
  /-- Python `SizeVariable` of `ConstantVariable`s -/
  | sizeVar (items : List ConstValue)
  | tensor (t : TensorVar)
  | tupleVar (items : List VT)
  | symNodeVar (p : Proxy) (e : SymExpr)
  /-- result of `wrap_fx_proxy` over a fresh graph node -/
  | graphResult (p : Proxy) (ex : ExampleVal)
  /-- result of `wrap_fx_proxy_cls` (used by `unpack_var_sequence`) -/
  | wrappedCls (cls : VarKind) (p : Proxy)
  | tensorSubclass (clsName : String) (src : Option Source)
  /-- Python `TensorWithTFOverrideVariable.from_tensor_var` result -/
  | tfOverride (base : TensorVar) (clsName : String)
  /-- Python `NumpyNdarrayVariable.create` result -/
  | numpyArr (p : Proxy)
  | userDefinedClass (cls : TensorCls)
  | delayGB (src : Source)

/-- Python exception classes raised by the embedded code.  `unsupported`
is the recoverable `Unsupported` signal thrown by `unimplemented(...)`. -/
inductive PyError
  | unsupported (msg : String)
  | typeError (msg : String)
  | attributeError (msg : String)
  | indexError (msg : String)
  | notImplementedError
  | assertionError
  | userError (msg : String)
deriving DecidableEq, Repr

/-- An operation recorded in the FX graph via `tx.output.create_proxy`. -/
inductive GraphOp
  | callMethodOp (name : String) (args : List VT)
  /-- Python `create_proxy("call_function", operator.setitem, ...)` -/
  | setitemOp (args : List VT)
  | callFunctionOp (name : String) (args : List VT)
  /-- Python `GetAttrVariable.create_getattr_proxy` -/
  | getattrOp (p : Proxy) (name : String)

/-- Guard kinds installed by the embedded paths. -/
inductive GuardKind
  | typeMatch
  | hasAttr
deriving DecidableEq, Repr

/-- The append-only per-frame trace state: recorded graph ops, a fresh-node
counter, and the installed guard set. -/
structure GraphState where
  ops : List GraphOp := []
  nextNode : Nat := 0
  guards : List (Source × GuardKind) := []

/-- Python `tx.output.create_proxy(...)`: append the op, hand back a fresh node. -/
def GraphState.createProxy (g : GraphState) (op : GraphOp) :
    GraphState × Proxy :=
  ({ g with ops := g.ops ++ [op], nextNode := g.nextNode + 1 },
    .node g.nextNode)

/-- Python `install_guard(...)`: set semantics, installing twice is a no-op. -/
def GraphState.installGuard (g : GraphState) (s : Source) (k : GuardKind) :
    GraphState :=
  if (s, k) ∈ g.guards then g
  else { g with guards := g.guards ++ [(s, k)] }

/-- Ambient configuration and globals read by the embedded code. -/
structure Config where
  /-- Python `config.trace_numpy` -/
  traceNumpy : Bool := true
  /-- Python `np is not None` (the numpy import succeeded) -/
  numpyAvailable : Bool := true
  /-- Python `config.capture_scalar_outputs` -/
  captureScalarOutputs : Bool := false
  /-- Python `torch.is_grad_enabled()` -/
  gradEnabled : Bool := true
  /-- Python `tx.strict_checks_enabled` -/
  strictChecks : Bool := false
  /-- Python `_autograd_backward_strict_mode_banned_ops` -/
  bannedOps : List String := []
deriving DecidableEq, Repr

/-- Python sequence subscript `l[i]` with negative-index wraparound;
`none` models the raised `IndexError`. -/
def pyIndex (l : List α) (i : Int) : Option α :=
  if i < 0 then
    if i + l.length < 0 then none else l[(i + l.length).toNat]?
  else l[i.toNat]?

/-- Which of the twin handlers `method_size` / `method_stride` is running
(the `name` string argument of `_method_size_stride`). -/
inductive SSKind
  | size | stride
deriving DecidableEq, Repr

/-- Python `getattr(self, name)` for `name` in size/stride. -/
def TensorVar.metaOf (v : TensorVar) : SSKind → Option (List Int)
  | .size => v.size
  | .stride => v.stride

/-- Python `getattr(fake, name)()` on the example value. -/
def FakeTensor.ofKind (f : FakeTensor) : SSKind → List PySymInt
  | .size => f.sizes
  | .stride => f.strides

/-- The `RetVariable` selector of `_method_size_stride`:
`make_const_size_variable` for size, `ConstantVariable.create` for
stride. -/
def RetVariable (which : SSKind) (r : List Int) : VT :=
  match which with
  | .size => .sizeVar (r.map ConstValue.intV)
  | .stride => .constV (.intTupleV r)

/-- Python `TensorVariable._method_size_stride` (tensor.py lines 389-421); the
`dim` argument has already been through `guard_if_dyn`.  `.ok none` is the
handler declining (falling through to default dispatch). -/
def _method_size_stride (v : TensorVar) (which : SSKind) (dim : Option Int) :
    Except PyError (Option VT) :=
  match v.metaOf which with
  | some r =>
    match dim with
    | none => .ok (some (RetVariable which r))
    | some d =>
      match pyIndex r d with
      | some x => .ok (some (.constV (.intV x)))
      | none => .error (.indexError "tuple index out of range")
  | none =>
    match v.exampleValue with
    | none => .ok none
    | some fake =>
      match dim with
      | none =>
        let fr := fake.ofKind which
        if hasFreeSymbolsL fr then .ok none
        else .ok (some (RetVariable which (fr.map PySymInt.intCast)))
      | some d =>
        match pyIndex (fake.ofKind which) d with
        | none => .error (.indexError "Dimension out of range")
        | some fr =>
          if fr.hasFreeSymbols then .ok none
          else .ok (some (.constV (.intV fr.intCast)))

/-- Python `TensorVariable.method_dim` (= `method_ndimension`). -/
def method_dim (v : TensorVar) : Option VT :=
  v.ndim.map fun n => .constV (.intV n)

/-- Python `TensorVariable.method_element_size` (tensor.py lines 525-526):
unconditionally dereferences `self.dtype.itemsize`; an absent dtype is a
raw `AttributeError` on `None`. -/
def method_element_size (v : TensorVar) : Except PyError (Option VT) :=
  match v.dtype with
  | some d => .ok (some (.constV (.intV d.itemsize)))
  | none =>
    .error (.attributeError "NoneType object has no attribute itemsize")

/-- Python `TensorVariable.method_as_subclass` (tensor.py lines 498-518).  The
rewiring into `TensorWithTFOverrideVariable` (which also rebinds the class's
torch-function hook through the builder) is summarized by the `tfOverride`
constructor; returning `none` is the handler declining. -/
def method_as_subclass (v : TensorVar) (cls : VT) : Option VT :=
  match cls with
  | .tensorSubclass clsName (some _) => some (.tfOverride v clsName)
  | _ => none

/-- Python `has_bool_key` nested helper of `method___setitem__`. -/
def hasBoolKey : VT → Bool
  | .tensor t =>
    decide (t.dtype = some Dtype.boolT) || decide (t.dtype = some Dtype.int8)
  | .tupleVar items => items.attach.any fun x => hasBoolKey x.1
  | _ => false
decreasing_by
  have h := List.sizeOf_lt_of_mem x.2
  simp only [VT.tupleVar.sizeOf_spec]
  omega

/-- Python `TensorVariable.method___setitem__` (tensor.py lines 607-633). -/
def method___setitem__ (cfg : Config) (g : GraphState) (v : TensorVar)
    (key value : VT) : GraphState × Except PyError (Option VT) :=
  if hasBoolKey key
      && (match value with
          | .tensor tv => tv.requires_grad.getD false
          | _ => false)
      && cfg.gradEnabled then
    (g, .error (.unsupported "boolean masking setitem backwards"))
  else
    let (g1, _) := g.createProxy (.setitemOp [.tensor v, key, value])
    (g1, .ok (some (.constV .noneV)))

/-- The external metadata oracle (fake-tensor propagation).  Modelled from
the spec: section 6, the oracle `inferExampleValue(node)` is external to
this file and "must be deterministic for a given node and prior trace
state"; only the queries the embedded code paths make are given concrete
answers here. -/
def inferExample (v : TensorVar) (name : String) (args : List VT) :
    ExampleVal :=
  match v.exampleValue with
  | none => .unknownEx
  | some f =>
    match name, args with
    | "size", [] => .sizesEx f.sizes
    | "size", [.constV (.intV d)] =>
      match pyIndex f.sizes d with
      | some s => .symIntEx s
      | none => .unknownEx
    | _, _ => .unknownEx

/-- The external value-wrapping service (`wrap_fx_proxy`, builder layer).
Modelled from the spec: section 6, "wrap(node, provenance?) -> Variable,
chooses the correct concrete variable kind from the oracle's example
value's runtime type": a plain-int example becomes a constant, a symbolic
scalar becomes a symbolic-scalar variable. -/
def wrap_fx_proxy (p : Proxy) (ex : ExampleVal) : VT :=
  match ex with
  | .symIntEx (.plain n) => .constV (.intV n)
  | .symIntEx (.symint e) => .symNodeVar p e
  | _ => .graphResult p ex

/-- Python `TensorVariable.method_numpy` (tensor.py lines 528-552).  The `force`
path calls `self.call_method(tx, "detach", [], {})`; no `method_detach`
handler exists, so that call default-dispatches into the graph, which is
inlined here. -/
def method_numpy (cfg : Config) (g : GraphState) (v : TensorVar)
    (force : Option VT) : GraphState × Except PyError (Option VT) :=
  if !cfg.traceNumpy then
    (g, .error (.unsupported "Tensor.numpy(). config.trace_numpy is False"))
  else if !cfg.numpyAvailable then
    (g, .error (.unsupported "Tensor.numpy(). NumPy is not available"))
  else if v.layout ≠ some Layout.strided then
    (g, .error (.typeError
      "cannot convert layout tensor to numpy. Use Tensor.dense() first"))
  else
    let viewPath : GraphState × Except PyError (Option VT) :=
      let (g1, p1) := g.createProxy
        (.callMethodOp "view_as" [.tensor v, .tensor v])
      (g1, .ok (some (.numpyArr p1)))
    match force with
    | none => viewPath
    | some (.constV c) =>
      if c.truthy then
        let (g1, p1) := g.createProxy (.callMethodOp "detach" [.tensor v])
        let t := wrap_fx_proxy p1 (inferExample v "detach" [])
        let (g2, p2) := g1.createProxy (.callMethodOp "cpu" [t])
        (g2, .ok (some (.numpyArr p2)))
      else viewPath
    | some _ => (g, .error .notImplementedError)

/-- Python `TensorVariable.call_method` (tensor.py lines 344-381): strict-mode
check, then the named handler if one exists (a raised `TypeError` there is
converted by `unimplemented` into the unsupported-construct signal; a
`none` result falls through), else the default graph-deferred dispatch.
Handlers are embedded for the methods the claims exercise; every other
name has no handler and default-dispatches.  A `SymNodeVariable` `dim`
argument (evaluated by `guard_if_dyn` in the source) is outside the
modelled fragment. -/
def defaultDispatch (v : TensorVar) (name : String) (args : List VT)
    (g0 : GraphState) : GraphState × Except PyError VT :=
  let pr := g0.createProxy (.callMethodOp name (.tensor v :: args))
  (pr.1, .ok (wrap_fx_proxy pr.2 (inferExample v name args)))

/-- Python argument binding for `method_size`/`method_stride` followed by
the handler body (the `dim` argument is `guard_if_dyn`-unwrapped from a
constant variable; binding failures are `TypeError`s). -/
def bindSizeStride (v : TensorVar) (which : SSKind) (args : List VT)
    (kwargs : List (String × VT)) : Except PyError (Option VT) :=
  match args, kwargs with
  | [], [] => _method_size_stride v which none
  | [.constV (.intV n)], [] => _method_size_stride v which (some n)
  | [], [("dim", .constV (.intV n))] => _method_size_stride v which (some n)
  | [_], [] => .error (.typeError "argument must be int")
  | _, _ => .error (.typeError "unexpected arguments")

/-- Argument binding for the zero-argument handlers. -/
def bindNoArgs (r : Except PyError (Option VT)) (args : List VT)
    (kwargs : List (String × VT)) : Except PyError (Option VT) :=
  match args, kwargs with
  | [], [] => r
  | _, _ => .error (.typeError "too many arguments")

/-- Argument binding for `method_numpy` (keyword-only `force`). -/
def bindNumpy (cfg : Config) (g : GraphState) (v : TensorVar)
    (args : List VT) (kwargs : List (String × VT)) :
    GraphState × Except PyError (Option VT) :=
  match args, kwargs with
  | [], [] => method_numpy cfg g v none
  | [], [("force", f)] => method_numpy cfg g v (some f)
  | _, _ => (g, .error (.typeError "unexpected arguments"))

/-- Argument binding for `method___setitem__`. -/
def bindSetitem (cfg : Config) (g : GraphState) (v : TensorVar)
    (args : List VT) (kwargs : List (String × VT)) :
    GraphState × Except PyError (Option VT) :=
  match args, kwargs with
  | [k, val], [] => method___setitem__ cfg g v k val
  | _, _ => (g, .error (.typeError "wrong number of arguments"))

/-- Argument binding for `method_as_subclass`. -/
def bindAsSubclass (v : TensorVar) (args : List VT)
    (kwargs : List (String × VT)) : Except PyError (Option VT) :=
  match args, kwargs with
  | [c], [] => .ok (method_as_subclass v c)
  | _, _ => .error (.typeError "wrong number of arguments")

/-- The `getattr(self, "method_" + name)` lookup plus Python argument
binding: `none` when no handler exists for `name`; otherwise the
handler's outcome (where a failed argument binding is a `TypeError`,
to be converted by the dispatcher). -/
def selectHandler (cfg : Config) (g : GraphState) (v : TensorVar)
    (name : String) (args : List VT) (kwargs : List (String × VT)) :
    Option (GraphState × Except PyError (Option VT)) :=
  if name = "size" ∨ name = "stride" then
    some (g, bindSizeStride v
      (if name = "size" then .size else .stride) args kwargs)
  else if name = "dim" ∨ name = "ndimension" then
    some (g, bindNoArgs (.ok (method_dim v)) args kwargs)
  else if name = "element_size" then
    some (g, bindNoArgs (method_element_size v) args kwargs)
  else if name = "numpy" then
    some (bindNumpy cfg g v args kwargs)
  else if name = "__setitem__" then
    some (bindSetitem cfg g v args kwargs)
  else if name = "as_subclass" then
    some (g, bindAsSubclass v args kwargs)
  else none

/-- The tail of `call_method`: return the handler's result; fall through
to the default graph-deferred dispatch when the handler declined or does
not exist; convert a raised `TypeError` into the unsupported-construct
signal (the `except TypeError` arm around the handler invocation);
propagate every other exception. -/
def finishDispatch (v : TensorVar) (name : String) (args : List VT)
    (handled : Option (GraphState × Except PyError (Option VT)))
    (g : GraphState) : GraphState × Except PyError VT :=
  match handled with
  | some (g1, .ok (some r)) => (g1, .ok r)
  | some (g1, .ok none) => defaultDispatch v name args g1
  | some (g1, .error (.typeError m)) =>
    (g1, .error (.unsupported ("unhandled args for " ++ name ++ ": " ++ m)))
  | some (g1, .error e) => (g1, .error e)
  | none => defaultDispatch v name args g

def call_method (cfg : Config) (g : GraphState) (v : TensorVar)
    (name : String) (args : List VT) (kwargs : List (String × VT)) :
    GraphState × Except PyError VT :=
  if cfg.strictChecks ∧ name ∈ cfg.bannedOps then
    (g, .error (.unsupported
      ("Illegal method invocation " ++ name ++ " in strict mode")))
  else
    finishDispatch v name args (selectHandler cfg g v name args kwargs) g

/-- Python `TensorVariable.has_unpack_var_sequence` (tensor.py lines 315-316):
literally `self.ndim > 0`; with `ndim` equal to `None` the comparison
raises `TypeError` rather than returning a boolean. -/
def has_unpack_var_sequence (v : TensorVar) : Except PyError Bool :=
  match v.ndim with
  | some n => .ok (decide (n > 0))
  | none =>
    .error (.typeError
      "unsupported operand types for greater: NoneType and int")

/-- Python `range(n)` for a Python int. -/
def intRange (n : Int) : List Int := (List.range n.toNat).map Int.ofNat

/-- One element produced by `unpack_var_sequence`:
`wrap_fx_proxy_cls(target_cls=type(self), proxy=self.as_proxy()[i])`. -/
def wrapItemAt (v : TensorVar) (i : Int) : VT :=
  .wrappedCls v.varClass (.item v.proxy i)

/-- Python `TensorVariable.unpack_var_sequence` (tensor.py lines 318-339).
`oracleHint` is the shape environment's hint consumed by
`SymNodeVariable.evaluate_expr`/`guard_scalar` on the dynamic path
(`none` = the data-dependent-guard failure). -/
def unpack_var_sequence (cfg : Config) (g : GraphState) (v : TensorVar)
    (idxes : Option (List Int)) (oracleHint : Option Int) :
    GraphState × Except PyError (List VT) :=
  match idxes with
  | some is => (g, .ok (is.map (wrapItemAt v)))
  | none =>
    match v.size with
    -- `if self.size:` — Python truthiness: present AND non-empty
    | some (n :: _) => (g, .ok ((intRange n).map (wrapItemAt v)))
    | _ =>
      let (g1, dynRes) :=
        call_method cfg g v "size" [.constV (.intV 0)] []
      match dynRes with
      | .error e => (g1, .error e)
      | .ok (.constV (.intV k)) =>
        (g1, .ok ((intRange k).map (wrapItemAt v)))
      | .ok (.constV _) => (g1, .error (.typeError "range expects int"))
      | .ok (.symNodeVar _ _) =>
        match oracleHint with
        | some k => (g1, .ok ((intRange k).map (wrapItemAt v)))
        | none =>
          (g1, .error (.userError
            "GuardOnDataDependentSymNode: consider torch constraint"))
      | .ok _ => (g1, .error .assertionError)

/-- Python `SymNodeVariable.create` (tensor.py lines 809-823).  `meta` is the
node's recorded `example_value`; `oracleVal` is `get_fake_value`'s answer,
consulted only when no `sym_num` was supplied.  The debugger call
`breakpoint()` on the `sympy.Integer` branch has no modelled effect. -/
def SymNodeVariable.create (meta : Option SymVal) (oracleVal : SymVal)
    (p : Proxy) (symNum0 : Option SymVal) : Except PyError VT :=
  if meta.isSome ∧ symNum0 ≠ meta then .error .assertionError
  else
    let symNum := symNum0.getD oracleVal
    match symNum with
    | .pyInt n => .ok (.constV (.intV n))
    | .pyBool b => .ok (.constV (.boolV b))
    | .sympyInt n => .ok (.constV (.intV n))
    | .symNode e => .ok (.symNodeVar p e)

/-- Python `torch.ops.aten` attributes whose first overload carries the
`inplace_view` tag (the registry facts behind the check at tensor.py lines
263-273). -/
def atenInplaceView (name : String) : Bool :=
  name ∈ ["resize_", "resize_as_", "rename_", "unsqueeze_", "squeeze_",
          "t_", "transpose_", "swapaxes_", "swapdims_", "detach_"]

/-- Names for which `inspect.getattr_static(torch.Tensor, name)` is a
getset descriptor (the static-introspection test inside
`try_generic_attr_handling`). -/
def tensorGetSetAttr (name : String) : Bool :=
  name ∈ ["H", "T", "mH", "mT", "real", "imag", "grad", "names", "is_leaf"]

/-- A call into the method protocol from attribute resolution
(`self.call_method(tx, m, [], {})`; such a call always produces a
variable when it does not raise). -/
def attrViaMethod (cfg : Config) (g : GraphState) (v : TensorVar)
    (m : String) : GraphState × Except PyError (Option VT) :=
  let r := call_method cfg g v m [] []
  (r.1, r.2.map some)

/-- The `ndim` arm of the elif chain: constant when known, else the `dim`
method protocol. -/
def stepNdim (cfg : Config) (g : GraphState) (v : TensorVar) :
    GraphState × Except PyError (Option VT) :=
  match v.ndim with
  | some n => (g, .ok (some (.constV (.intV n))))
  | none => attrViaMethod cfg g v "dim"

/-- The `shape` arms of the elif chain: a `SizeVariable` of constants when
the static size is known, else the `size` method protocol. -/
def stepShape (cfg : Config) (g : GraphState) (v : TensorVar) :
    GraphState × Except PyError (Option VT) :=
  match v.size with
  | some sz => (g, .ok (some (.sizeVar (sz.map ConstValue.intV))))
  | none => attrViaMethod cfg g v "size"

/-- The elif chain of `var_getattr` (tensor.py lines 225-250).  The
branches mentioning the same `name` are grouped per name; for any fixed
`name` the evaluation order is that of the source. -/
def getattrStep (cfg : Config) (g : GraphState) (v : TensorVar)
    (name : String) : GraphState × Except PyError (Option VT) :=
  if name = "ndim" then stepNdim cfg g v
  else if name = "dtype" then
    (g, .ok (v.dtype.map fun d => .constV (.dtypeV d)))
  else if name = "device" then
    (g, .ok (v.device.map fun d => .constV (.deviceV d)))
  else if name = "layout" then
    (g, .ok (v.layout.map fun l => .constV (.layoutV l)))
  else if name = "is_cuda" then
    (g, .ok (v.device.map fun d =>
      .constV (.boolV (d.type = DeviceType.cuda))))
  else if name = "shape" then stepShape cfg g v
  else if name = "requires_grad" then
    (g, .ok (v.requires_grad.map fun b => .constV (.boolV b)))
  else if name = "is_quantized" then
    (g, .ok (v.is_quantized.map fun b => .constV (.boolV b)))
  else if name = "is_sparse" then
    (g, .ok (v.is_sparse.map fun b => .constV (.boolV b)))
  else if name = "data" then attrViaMethod cfg g v "detach"
  else (g, .ok none)

/-- Lines 254-259: when the chain produced a result and provenance is
known, install the type-match guard on `self` and project the result's
source. -/
def guardAndSource (g1 : GraphState) (v : TensorVar) (name : String)
    (result0 : Option VT) : GraphState × Option Source :=
  match result0, v.source with
  | some _, some s =>
    (g1.installGuard s .typeMatch, some (.attrSrc s name))
  | _, _ => (g1, none)

/-- Lines 263-273: the in-place-view attribute check (provenance present
and the aten op tagged `inplace_view`) yields the attribute source for
the delayed-graph-break result. -/
def atenDelayCheck (v : TensorVar) (name : String) : Option Source :=
  match v.source with
  | some s =>
    if atenInplaceView name then some (Source.attrSrc s name) else none
  | none => none

/-- Lines 280-306, `try_generic_attr_handling`: getset descriptors are
read through a recorded attribute-access node. -/
def genericAttr (g2 : GraphState) (v : TensorVar) (name : String) :
    GraphState × Except PyError (VT × Option Source) :=
  let pr := g2.createProxy (.getattrOp v.proxy name)
  match v.source with
  | some s => (pr.1, .ok (.graphResult pr.2 .unknownEx,
      some (.attrSrc s name)))
  | none => (pr.1, .ok (.graphResult pr.2 .unknownEx, none))

/-- Lines 175-216, `dynamic_getattr`: re-derive the attribute from the
provenance binding, installing a presence guard; `NotImplementedError`
without provenance or when the re-binder declines. -/
def dynamic_getattr (rebind : Source → String → Option ConstValue)
    (g2 : GraphState) (v : TensorVar) (name : String) :
    GraphState × Except PyError (VT × Option Source) :=
  match v.source with
  | none => (g2, .error .notImplementedError)
  | some s =>
    match rebind s name with
    | none => (g2, .error .notImplementedError)
    | some c =>
      (g2.installGuard (.attrSrc s name) .hasAttr,
        .ok (.constV c, some (.attrSrc s name)))

/-- Lines 278-313: resolve a chain result, else generic getset handling,
else the dynamic fallback. -/
def finishResult (rebind : Source → String → Option ConstValue)
    (v : TensorVar) (name : String) (gs : GraphState × Option Source)
    (result0 : Option VT) :
    GraphState × Except PyError (VT × Option Source) :=
  match result0 with
  | some r => (gs.1, .ok (r, gs.2))
  | none =>
    if tensorGetSetAttr name then genericAttr gs.1 v name
    else dynamic_getattr rebind gs.1 v name

/-- The post-chain part of `var_getattr` given the chain's result. -/
def afterAten (rebind : Source → String → Option ConstValue)
    (v : TensorVar) (name : String) (gs : GraphState × Option Source)
    (result0 : Option VT) :
    GraphState × Except PyError (VT × Option Source) :=
  match atenDelayCheck v name with
  | some asrc => (gs.1, .ok (.delayGB asrc, some asrc))
  | none => finishResult rebind v name gs result0

def getattrFinish (rebind : Source → String → Option ConstValue)
    (v : TensorVar) (name : String) (g1 : GraphState)
    (result0 : Option VT) :
    GraphState × Except PyError (VT × Option Source) :=
  if name = "__class__" then
    (g1, .ok (.userDefinedClass v.class_type, none))
  else afterAten rebind v name (guardAndSource g1 v name result0) result0

/-- Threads the chain's possible exception through to the finish. -/
def stepThen (rebind : Source → String → Option ConstValue)
    (v : TensorVar) (name : String)
    (st : GraphState × Except PyError (Option VT)) :
    GraphState × Except PyError (VT × Option Source) :=
  match st.2 with
  | .error e => (st.1, .error e)
  | .ok result0 => getattrFinish rebind v name st.1 result0

/-- Python `TensorVariable.var_getattr` (tensor.py lines 218-313).  `rebind`
models the external provenance re-binder used by `dynamic_getattr`
(evaluating `self.source` in the frame scope and reading the attribute
off the real value); it answers `none` whenever that path raises
`NotImplementedError` (no value, custom getattr, callables, ...).  The
result pairs the variable with the source the code assigns to it. -/
def var_getattr (cfg : Config)
    (rebind : Source → String → Option ConstValue)
    (g : GraphState) (v : TensorVar) (name : String) :
    GraphState × Except PyError (VT × Option Source) :=
  if cfg.strictChecks ∧ name ∈ cfg.bannedOps then
    (g, .error (.unsupported
      ("Illegal getattr invocation " ++ name ++ " in strict mode")))
  else stepThen rebind v name (getattrStep cfg g v name)

/-- The ordered scalar contents of a shape-query result: the dimension
extents it stands for, independent of the identity of the proxy node
carrying them.  `none` when the variable does not carry dimension
extents. -/
def shapeContents : VT → Option (List PySymInt)
  | .sizeVar items =>
    some (items.map fun c =>
      match c with
      | .intV n => PySymInt.plain n
      | _ => PySymInt.plain 0)
  | .graphResult _ (.sizesEx l) => some l
  | _ => none

/-- The method name string corresponding to an `SSKind`. -/
def SSKind.methodName : SSKind → String
  | .size => "size"
  | .stride => "stride"

/-- The dimension extents a `shape` attribute query on a given variable
must report, as a function of the variable's metadata alone: the cached
static size when present, else the oracle's recorded sizes (cast to plain
ints when symbol-free), else nothing. -/
def expectedShape (v : TensorVar) : Option (List PySymInt) :=
  match v.size with
  | some sz => some (sz.map PySymInt.plain)
  | none =>
    match v.exampleValue with
    | none => none
    | some f =>
      if hasFreeSymbolsL f.sizes then some f.sizes
      else some (f.sizes.map fun s => PySymInt.plain s.intCast)

/-! ## Theorems -/

/-- Each entry of the size tuple written by `specialize` (after the
`int(s) if is_symbolic(s) else s` cast) is free of symbols. -/
theorem cast_entry_no_free (s : PySymInt) :
    (if s.isSymbolic then PySymInt.plain s.intCast else s).hasFreeSymbols
      = false := by
  cases s <;> simp [PySymInt.isSymbolic, PySymInt.hasFreeSymbols]

theorem hasFreeSymbolsL_map_cast (l : List PySymInt) :
    hasFreeSymbolsL (l.map fun s =>
      if s.isSymbolic then PySymInt.plain s.intCast else s) = false := by
  simp only [hasFreeSymbolsL, List.any_map, List.any_eq_false]
  intro s _
  simp [Function.comp, cast_entry_no_free s]

/-- C2: `specialize` always records dtype, device, layout, ndim,
requires_grad, is_quantized, is_sparse and the class type; it records
size, stride and contiguity exactly when the value has no free symbols;
for a batched value the contiguity field is the unknown sentinel `None`;
and whenever size/stride are recorded their entries are symbol-free
compile-time constants. -/
theorem specialize_metadata_policy (t : Tensor) :
    ((specialize t).dtype = t.dtype ∧ (specialize t).device = t.device ∧
     (specialize t).layout = t.layout ∧ (specialize t).ndim = t.ndim ∧
     (specialize t).requires_grad = t.requires_grad ∧
     (specialize t).is_quantized = t.is_quantized ∧
     (specialize t).is_sparse = t.is_sparse ∧
     (specialize t).class_type = t.classType) ∧
    ((specialize t).size.isSome = true ↔ t.has_free_symbols = false) ∧
    ((specialize t).stride.isSome = true ↔ t.has_free_symbols = false) ∧
    ((specialize t).is_contiguous.isSome = true ↔
      t.has_free_symbols = false) ∧
    (t.has_free_symbols = false → t.isBatched = true →
      (specialize t).is_contiguous = some none) ∧
    (∀ l, (specialize t).size = some l → hasFreeSymbolsL l = false) ∧
    (∀ l, (specialize t).stride = some l → hasFreeSymbolsL l = false) := by
  unfold specialize
  by_cases h : t.has_free_symbols
  · simp [h]
  · have h' : t.has_free_symbols = false := by simpa using h
    have hstr : hasFreeSymbolsL t.strides = false := by
      have := h'
      simp only [Tensor.has_free_symbols, Bool.or_eq_false_iff] at this
      exact this.1.2
    by_cases hb : t.isBatched
    · simp [h', hb, hasFreeSymbolsL_map_cast, hstr]
    · simp [h', hb, hasFreeSymbolsL_map_cast, hstr]

/-- C2 witness: a fully static batched tensor gets size/stride recorded
symbol-free and the `None` contiguity sentinel. -/
theorem specialize_metadata_policy_witness :
    (specialize { dtype := .float32, device := { type := .cpu },
                  layout := .strided,
                  sizes := [.plain 2, .symint (.intConst 3)],
                  strides := [.plain 3, .plain 1], requires_grad := true,
                  is_quantized := false, is_sparse := false,
                  isBatched := true }).is_contiguous = some none ∧
    ∀ l, (specialize { dtype := .float32, device := { type := .cpu },
                       layout := .strided,
                       sizes := [.plain 2, .symint (.intConst 3)],
                       strides := [.plain 3, .plain 1],
                       requires_grad := true, is_quantized := false,
                       is_sparse := false, isBatched := true }).size
      = some l → hasFreeSymbolsL l = false :=
  ⟨(specialize_metadata_policy _).2.2.2.2.1 (by decide) rfl,
   (specialize_metadata_policy _).2.2.2.2.2.1⟩

/-- C5 counterexample: on a variable whose `ndim` field is absent, the
sequence-unpacking predicate does not return `false`; the bare
`self.ndim > 0` comparison raises a `TypeError`. -/
theorem has_unpack_ndim_none_counterexample :
    has_unpack_var_sequence { ndim := none } ≠ .ok false ∧
    has_unpack_var_sequence { ndim := none } =
      .error (.typeError
        "unsupported operand types for greater: NoneType and int") := by
  refine ⟨?_, rfl⟩
  intro h
  simp [has_unpack_var_sequence] at h

/-- C5 (amended): when `ndim` is known the predicate returns true iff the
rank is positive; when `ndim` is absent the comparison raises a
`TypeError` instead of returning a boolean. -/
theorem has_unpack_var_sequence_policy (v : TensorVar) :
    (∀ n, v.ndim = some n →
      has_unpack_var_sequence v = .ok (decide (n > 0))) ∧
    (v.ndim = none →
      has_unpack_var_sequence v =
        .error (.typeError
          "unsupported operand types for greater: NoneType and int")) := by
  constructor
  · intro n h
    simp [has_unpack_var_sequence, h]
  · intro h
    simp [has_unpack_var_sequence, h]

/-- C5 witness: a rank-2 variable supports unpacking, a rank-0 one does
not. -/
theorem has_unpack_var_sequence_policy_witness :
    has_unpack_var_sequence { ndim := some 2 } = .ok (decide ((2 : Int) > 0)) ∧
    has_unpack_var_sequence { ndim := some 0 } = .ok (decide ((0 : Int) > 0)) :=
  ⟨(has_unpack_var_sequence_policy _).1 2 rfl,
   (has_unpack_var_sequence_policy _).1 0 rfl⟩

/-- C9: `method_element_size` answers the dtype's byte width as a constant
when `dtype` is present, and dereferencing the absent dtype raises a raw
`AttributeError` — it neither declines to default dispatch nor raises the
recoverable unsupported-construct signal. -/
theorem element_size_policy (v : TensorVar) :
    (∀ d, v.dtype = some d →
      method_element_size v = .ok (some (.constV (.intV d.itemsize)))) ∧
    (v.dtype = none →
      method_element_size v =
        .error (.attributeError
          "NoneType object has no attribute itemsize")) ∧
    method_element_size v ≠ .ok none ∧
    (∀ m, method_element_size v ≠ .error (.unsupported m)) := by
  refine ⟨?_, ?_, ?_, ?_⟩
  · intro d h; simp [method_element_size, h]
  · intro h; simp [method_element_size, h]
  · cases h : v.dtype <;> simp [method_element_size, h]
  · intro m; cases h : v.dtype <;> simp [method_element_size, h]

/-- C9 witness. -/
theorem element_size_policy_witness :
    method_element_size { dtype := some Dtype.float32 } =
      .ok (some (.constV (.intV 4))) ∧
    method_element_size ({} : TensorVar) =
      .error (.attributeError "NoneType object has no attribute itemsize") :=
  ⟨(element_size_policy _).1 .float32 rfl, (element_size_policy _).2.1 rfl⟩

/-- C10: with array interop enabled and numpy importable, `method_numpy`
on a non-strided-layout variable raises an ordinary `TypeError` (not the
unsupported-construct signal), with or without `force`, and before any
operation is recorded into the graph. -/
theorem numpy_nonstrided_layout_policy (cfg : Config) (g : GraphState)
    (v : TensorVar) (force : Option VT)
    (ht : cfg.traceNumpy = true) (hn : cfg.numpyAvailable = true)
    (hl : v.layout ≠ some Layout.strided) :
    method_numpy cfg g v force =
      (g, .error (.typeError
        "cannot convert layout tensor to numpy. Use Tensor.dense() first")) ∧
    (∀ m, (method_numpy cfg g v force).2 ≠ .error (.unsupported m)) := by
  have h : method_numpy cfg g v force =
      (g, .error (.typeError
        "cannot convert layout tensor to numpy. Use Tensor.dense() first")) := by
    simp [method_numpy, ht, hn, hl]
  exact ⟨h, by intro m; rw [h]; simp⟩

/-- C10 witness: a sparse-layout variable under the default
configuration. -/
theorem numpy_nonstrided_layout_policy_witness :
    method_numpy {} {} { layout := some Layout.sparseCoo } none =
      ({}, .error (.typeError
        "cannot convert layout tensor to numpy. Use Tensor.dense() first")) :=
  (numpy_nonstrided_layout_policy {} {} { layout := some Layout.sparseCoo }
    none rfl rfl (by simp)).1

/-- Truthiness of `isinstance(value, TensorVariable) and
value.requires_grad` as a proposition. -/
theorem value_requires_grad_iff (value : VT) :
    (match value with
     | VT.tensor tv => tv.requires_grad.getD false
     | _ => false) = true ↔
    ∃ tv, value = .tensor tv ∧ tv.requires_grad = some true := by
  cases value <;> simp
  case tensor t => cases h : t.requires_grad <;> simp [h]

/-- C4: `__setitem__` fails with the unsupported-construct signal exactly
when the key contains (possibly nested in a tuple) a bool/int8 tensor-like
AND the written value is a tensor-like with `requires_grad` AND gradient
tracking is globally enabled (leaving the graph untouched); in every other
case it records the deferred `operator.setitem` call and returns the
constant `None`. -/
theorem setitem_policy (cfg : Config) (g : GraphState) (v : TensorVar)
    (key value : VT) :
    ((∃ m, method___setitem__ cfg g v key value =
        (g, .error (.unsupported m))) ↔
      (hasBoolKey key = true ∧
       (∃ tv, value = .tensor tv ∧ tv.requires_grad = some true) ∧
       cfg.gradEnabled = true)) ∧
    (∀ gr res, method___setitem__ cfg g v key value = (gr, .ok res) →
      res = some (.constV .noneV) ∧
      gr.ops = g.ops ++ [.setitemOp [.tensor v, key, value]]) := by
  by_cases hc : (hasBoolKey key
      && (match value with
          | VT.tensor tv => tv.requires_grad.getD false
          | _ => false)
      && cfg.gradEnabled) = true
  · have heq : method___setitem__ cfg g v key value =
        (g, .error (.unsupported "boolean masking setitem backwards")) := by
      unfold method___setitem__
      rw [if_pos hc]
    have hc' := hc
    simp only [Bool.and_eq_true] at hc'
    constructor
    · constructor
      · intro _
        exact ⟨hc'.1.1, (value_requires_grad_iff value).mp hc'.1.2, hc'.2⟩
      · intro _
        exact ⟨_, heq⟩
    · intro gr res h
      rw [heq] at h
      obtain ⟨-, h2⟩ := Prod.mk.injEq .. |>.mp h
      simp at h2
  · have heq : method___setitem__ cfg g v key value =
        ({ ops := g.ops ++ [.setitemOp [.tensor v, key, value]],
           nextNode := g.nextNode + 1, guards := g.guards },
         .ok (some (.constV .noneV))) := by
      unfold method___setitem__
      rw [if_neg hc]
      rfl
    have hc' : ¬ (hasBoolKey key = true ∧
        (∃ tv, value = .tensor tv ∧ tv.requires_grad = some true) ∧
        cfg.gradEnabled = true) := by
      rintro ⟨h1, h2, h3⟩
      exact hc (by
        simp only [Bool.and_eq_true]
        exact ⟨⟨h1, (value_requires_grad_iff value).mpr h2⟩, h3⟩)
    constructor
    · constructor
      · rintro ⟨m, hm⟩
        rw [heq] at hm
        obtain ⟨-, h2⟩ := Prod.mk.injEq .. |>.mp hm
        simp at h2
      · intro h
        exact absurd h hc'
    · intro gr res h
      rw [heq] at h
      obtain ⟨h1, h2⟩ := Prod.mk.injEq .. |>.mp h
      refine ⟨?_, ?_⟩
      · injection h2 with h3
        exact h3.symm
      · rw [← h1]

/-- C4 witness: a boolean-mask write of a gradient-requiring tensor with
gradients enabled raises the unsupported signal. -/
theorem setitem_policy_witness :
    ∃ m, method___setitem__ {} {} {} (.tensor { dtype := some .boolT })
      (.tensor { requires_grad := some true }) =
      ({}, .error (.unsupported m)) :=
  (setitem_policy {} {} {} (.tensor { dtype := some .boolT })
    (.tensor { requires_grad := some true })).1.mpr
    ⟨by simp [hasBoolKey], ⟨_, rfl, rfl⟩, rfl⟩

/-- C3 counterexample: a `SymInt`-typed value whose backing expression is
the constant 5 resolves with zero free symbols, yet
`SymNodeVariable.create` returns a symbolic-scalar variable for it rather
than collapsing to a plain constant. -/
theorem symnode_create_zero_free_counterexample :
    SymVal.hasFreeSymbols (.symNode (.intConst 5)) = false ∧
    SymNodeVariable.create none (.pyInt 0) (.node 0)
      (some (.symNode (.intConst 5))) =
      .ok (.symNodeVar (.node 0) (.intConst 5)) := by
  constructor
  · rfl
  · simp [SymNodeVariable.create]

/-- C3 (amended): `create` collapses to a plain constant exactly for
values that are plain ints/bools or sympy integers by runtime type; a
`SymInt`-typed value is kept as a symbolic-scalar variable even when its
expression has no free symbols; and if the node has a recorded example
value it must equal the supplied value, else the consistency assertion
fails. -/
theorem symnode_create_policy (meta : Option SymVal) (oracleVal : SymVal)
    (p : Proxy) (s0 : Option SymVal) :
    (∀ ex, meta = some ex → s0 ≠ some ex →
      SymNodeVariable.create meta oracleVal p s0 =
        .error .assertionError) ∧
    ((meta = none ∨ s0 = meta) →
      (∀ n, s0.getD oracleVal = .pyInt n →
        SymNodeVariable.create meta oracleVal p s0 =
          .ok (.constV (.intV n))) ∧
      (∀ b, s0.getD oracleVal = .pyBool b →
        SymNodeVariable.create meta oracleVal p s0 =
          .ok (.constV (.boolV b))) ∧
      (∀ n, s0.getD oracleVal = .sympyInt n →
        SymNodeVariable.create meta oracleVal p s0 =
          .ok (.constV (.intV n))) ∧
      (∀ e, s0.getD oracleVal = .symNode e →
        SymNodeVariable.create meta oracleVal p s0 =
          .ok (.symNodeVar p e))) := by
  constructor
  · intro ex hm hne
    subst hm
    simp [SymNodeVariable.create, hne]
  · intro hok
    have hcond : ¬ (meta.isSome = true ∧ s0 ≠ meta) := by
      rcases hok with h | h
      · subst h; simp
      · subst h; simp
    refine ⟨?_, ?_, ?_, ?_⟩ <;> intro x hx <;>
      simp [SymNodeVariable.create, hcond, hx]

/-- C3 witness for the amended policy: a plain int collapses to a
constant, and a stale recorded example value trips the assertion. -/
theorem symnode_create_policy_witness :
    SymNodeVariable.create none (.pyInt 0) (.node 0) (some (.pyInt 7)) =
      .ok (.constV (.intV 7)) ∧
    SymNodeVariable.create (some (.pyInt 3)) (.pyInt 0) (.node 0)
      (some (.pyInt 4)) = .error .assertionError :=
  ⟨((symnode_create_policy none (.pyInt 0) (.node 0)
      (some (.pyInt 7))).2 (Or.inl rfl)).1 7 rfl,
   (symnode_create_policy (some (.pyInt 3)) (.pyInt 0) (.node 0)
      (some (.pyInt 4))).1 (.pyInt 3) rfl (by simp)⟩

/-- C7: `as_subclass` rewires into the torch-function override variable
exactly when the argument is a subclass-constructor variable with known
provenance; for any other argument the handler declines (returns nothing,
raising no error), so dispatch falls through to the default graph-deferred
path. -/
theorem as_subclass_policy (v : TensorVar) (cls : VT) :
    (∀ name src, cls = .tensorSubclass name (some src) →
      method_as_subclass v cls = some (.tfOverride v name)) ∧
    ((∀ name src, cls ≠ .tensorSubclass name (some src)) →
      method_as_subclass v cls = none) ∧
    (∀ cfg g, method_as_subclass v cls = none →
      ¬ (cfg.strictChecks = true ∧ "as_subclass" ∈ cfg.bannedOps) →
      call_method cfg g v "as_subclass" [cls] [] =
        ((g.createProxy (.callMethodOp "as_subclass" [.tensor v, cls])).1,
          .ok (wrap_fx_proxy
            (g.createProxy
              (.callMethodOp "as_subclass" [.tensor v, cls])).2
            (inferExample v "as_subclass" [cls])))) := by
  refine ⟨?_, ?_, ?_⟩
  · intro name src h
    subst h
    rfl
  · intro hne
    match cls with
    | .tensorSubclass n (some s) => exact absurd rfl (hne n s)
    | .tensorSubclass n none => rfl
    | .constV _ | .sizeVar _ | .tensor _ | .tupleVar _ | .symNodeVar _ _
    | .graphResult _ _ | .wrappedCls _ _ | .tfOverride _ _ | .numpyArr _
    | .userDefinedClass _ | .delayGB _ => rfl
  · intro cfg g hdecl hstrict
    rw [call_method, if_neg hstrict]
    simp [selectHandler, bindAsSubclass, finishDispatch, hdecl,
      defaultDispatch]

/-- C7 witness: a subclass-constructor argument with no provenance makes
the handler decline. -/
theorem as_subclass_policy_witness :
    method_as_subclass {} (.tensorSubclass "MyTensor" none) = none :=
  (as_subclass_policy {} (.tensorSubclass "MyTensor" none)).2.1
    (by intro name src h; simp at h)

/-- C6: unpacking with no explicit indices a variable whose leading
extent is statically known produces exactly that many wrapped variables,
the i-th wrapping the subscript proxy at index i, all of the parent's own
variable-tracker kind. -/
theorem unpack_static_policy (cfg : Config) (g : GraphState)
    (v : TensorVar) (hint : Option Int) (n : Int) (rest : List Int)
    (hs : v.size = some (n :: rest)) (hn : 0 ≤ n) :
    ∃ l, unpack_var_sequence cfg g v none hint = (g, .ok l) ∧
      (l.length : Int) = n ∧
      ∀ i (h : i < l.length),
        l.get ⟨i, h⟩ = .wrappedCls v.varClass (.item v.proxy i) := by
  refine ⟨(intRange n).map (wrapItemAt v), ?_, ?_, ?_⟩
  · simp [unpack_var_sequence, hs]
  · simp [intRange]
    omega
  · intro i h
    simp [intRange, wrapItemAt, List.get_eq_getElem]

/-- C6 witness: a statically known leading extent of 3 yields three
subscript wrappers. -/
theorem unpack_static_policy_witness :
    ∃ l, unpack_var_sequence {} {} { size := some [3, 4] } none none =
      ({}, .ok l) ∧ (l.length : Int) = 3 ∧
      ∀ i (h : i < l.length),
        l.get ⟨i, h⟩ =
          VT.wrappedCls VarKind.tensorVariable (Proxy.item (.node 0) i) :=
  unpack_static_policy {} {} { size := some [3, 4] } none 3 [4] rfl
    (by decide)

/-- C1: the size/stride method handlers answer from already-known static
metadata first; with metadata absent they consult the node's recorded
example value and return an int-cast constant iff the oracle's answer has
no free symbolic components, declining otherwise; with neither metadata
nor an example value they decline; and a declined call falls through to
the default graph-deferred dispatch. -/
theorem size_stride_handler_policy (v : TensorVar) (which : SSKind) :
    (∀ r, v.metaOf which = some r →
      _method_size_stride v which none =
        .ok (some (RetVariable which r)) ∧
      (∀ d x, pyIndex r d = some x →
        _method_size_stride v which (some d) =
          .ok (some (.constV (.intV x))))) ∧
    (∀ fake, v.metaOf which = none → v.exampleValue = some fake →
      ((∃ res, _method_size_stride v which none = .ok (some res)) ↔
        hasFreeSymbolsL (fake.ofKind which) = false) ∧
      (hasFreeSymbolsL (fake.ofKind which) = false →
        _method_size_stride v which none =
          .ok (some (RetVariable which
            ((fake.ofKind which).map PySymInt.intCast)))) ∧
      (hasFreeSymbolsL (fake.ofKind which) = true →
        _method_size_stride v which none = .ok none) ∧
      (∀ d s, pyIndex (fake.ofKind which) d = some s →
        ((∃ res, _method_size_stride v which (some d) = .ok (some res)) ↔
          s.hasFreeSymbols = false) ∧
        (s.hasFreeSymbols = false →
          _method_size_stride v which (some d) =
            .ok (some (.constV (.intV s.intCast)))))) ∧
    (v.metaOf which = none → v.exampleValue = none →
      ∀ dim, _method_size_stride v which dim = .ok none) ∧
    (∀ cfg g, v.metaOf which = none → v.exampleValue = none →
      ¬ (cfg.strictChecks = true ∧ which.methodName ∈ cfg.bannedOps) →
      call_method cfg g v which.methodName [] [] =
        defaultDispatch v which.methodName [] g) := by
  refine ⟨?_, ?_, ?_, ?_⟩
  · intro r h
    constructor
    · simp [_method_size_stride, h]
    · intro d x hx
      simp [_method_size_stride, h, hx]
  · intro fake hm hf
    refine ⟨?_, ?_, ?_, ?_⟩
    · by_cases hfs : hasFreeSymbolsL (fake.ofKind which) = true
      · simp [_method_size_stride, hm, hf, hfs]
      · have hfs' : hasFreeSymbolsL (fake.ofKind which) = false := by
          simpa using hfs
        simp [_method_size_stride, hm, hf, hfs']
    · intro hfs
      simp [_method_size_stride, hm, hf, hfs]
    · intro hfs
      simp [_method_size_stride, hm, hf, hfs]
    · intro d s hx
      constructor
      · by_cases hfs : s.hasFreeSymbols = true
        · simp [_method_size_stride, hm, hf, hx, hfs]
        · have hfs' : s.hasFreeSymbols = false := by simpa using hfs
          simp [_method_size_stride, hm, hf, hx, hfs']
      · intro hfs
        simp [_method_size_stride, hm, hf, hx, hfs]
  · intro hm hf dim
    cases dim <;> simp [_method_size_stride, hm, hf]
  · intro cfg g hm hf hstrict
    have hdecl : _method_size_stride v which none = .ok none := by
      simp [_method_size_stride, hm, hf]
    cases which
    · rw [call_method, if_neg (by simpa [SSKind.methodName] using hstrict)]
      simp [SSKind.methodName, selectHandler, bindSizeStride, hdecl,
        finishDispatch]
    · rw [call_method, if_neg (by simpa [SSKind.methodName] using hstrict)]
      simp [SSKind.methodName, selectHandler, bindSizeStride, hdecl,
        finishDispatch]

/-- C1 witness: static metadata answered directly; a symbolic oracle
answer declined; no metadata and no oracle answer declined. -/
theorem size_stride_handler_policy_witness :
    _method_size_stride { size := some [2, 3] } .size none =
      .ok (some (RetVariable .size [2, 3])) ∧
    _method_size_stride
      { exampleValue := some { sizes := [.symint (.sym "s0")],
                               strides := [.plain 1] } } .size none =
      .ok none ∧
    _method_size_stride ({} : TensorVar) .size none = .ok none :=
  ⟨((size_stride_handler_policy { size := some [2, 3] } .size).1
      [2, 3] rfl).1,
   ((size_stride_handler_policy
      { exampleValue := some { sizes := [.symint (.sym "s0")],
                               strides := [.plain 1] } } .size).2.1
      { sizes := [.symint (.sym "s0")], strides := [.plain 1] }
      rfl rfl).2.2.1 rfl,
   (size_stride_handler_policy ({} : TensorVar) .size).2.2.1 rfl rfl none⟩

theorem atenDelayCheck_shape (v : TensorVar) :
    atenDelayCheck v "shape" = none := by
  cases h : v.source <;> simp [atenDelayCheck, atenInplaceView, h]

/-- A chain result for `shape` is returned as-is by the post-chain
processing (with some source projection and guard bookkeeping). -/
theorem getattrFinish_shape_some
    (rebind : Source → String → Option ConstValue) (v : TensorVar)
    (g1 : GraphState) (r : VT) :
    ∃ g' src, getattrFinish rebind v "shape" g1 (some r) =
      (g', .ok (r, src)) := by
  refine ⟨(guardAndSource g1 v "shape" (some r)).1,
          (guardAndSource g1 v "shape" (some r)).2, ?_⟩
  simp only [getattrFinish, afterAten, atenDelayCheck_shape v,
    finishResult]
  simp

/-- The `shape` attribute result is determined by the variable's metadata
alone: either every call (whatever the trace state) raises, or every call
succeeds with scalar contents `expectedShape v`. -/
theorem var_getattr_shape_contents (cfg : Config)
    (rebind : Source → String → Option ConstValue) (v : TensorVar) :
    (∀ g, ∃ e, (var_getattr cfg rebind g v "shape").2 = .error e) ∨
    (∀ g, ∃ g' r, var_getattr cfg rebind g v "shape" = (g', .ok r) ∧
      shapeContents r.1 = expectedShape v) := by
  by_cases hb : cfg.strictChecks = true ∧ "shape" ∈ cfg.bannedOps
  · left
    intro g
    exact ⟨_, by rw [var_getattr, if_pos hb]⟩
  · have hstep : ∀ g : GraphState, var_getattr cfg rebind g v "shape" =
        stepThen rebind v "shape" (stepShape cfg g v) := by
      intro g
      rw [var_getattr, if_neg hb]
      simp [getattrStep]
    cases hsz : v.size with
    | some sz =>
      right
      intro g
      obtain ⟨g', src, hfin⟩ := getattrFinish_shape_some rebind v g
        (VT.sizeVar (sz.map ConstValue.intV))
      refine ⟨g', (VT.sizeVar (sz.map ConstValue.intV), src), ?_, ?_⟩
      · rw [hstep g]
        simp only [stepShape, hsz, stepThen]
        exact hfin
      · simp [expectedShape, hsz, shapeContents, List.map_map,
          Function.comp]
    | none =>
      by_cases hb2 : cfg.strictChecks = true ∧ "size" ∈ cfg.bannedOps
      · left
        intro g
        rw [hstep g]
        simp only [stepShape, hsz, attrViaMethod]
        rw [call_method, if_pos hb2]
        simp [stepThen, Except.map]
      · have hcm : ∀ g : GraphState, call_method cfg g v "size" [] [] =
            finishDispatch v "size" []
              (some (g, _method_size_stride v .size none)) g := by
          intro g
          rw [call_method, if_neg hb2]
          simp [selectHandler, bindSizeStride]
        cases hex : v.exampleValue with
        | none =>
          right
          intro g
          have hh : _method_size_stride v .size none = .ok none := by
            simp [_method_size_stride, TensorVar.metaOf, hsz, hex]
          obtain ⟨g', src, hfin⟩ := getattrFinish_shape_some rebind v
            (g.createProxy (.callMethodOp "size" [.tensor v])).1
            (.graphResult
              (g.createProxy (.callMethodOp "size" [.tensor v])).2
              .unknownEx)
          refine ⟨g', (.graphResult
              (g.createProxy (.callMethodOp "size" [.tensor v])).2
              .unknownEx, src), ?_, ?_⟩
          · rw [hstep g]
            simp only [stepShape, hsz, attrViaMethod, hcm g, hh,
              finishDispatch, defaultDispatch, inferExample, hex,
              wrap_fx_proxy, Except.map, stepThen]
            exact hfin
          · simp [shapeContents, expectedShape, hsz, hex]
        | some f =>
          right
          by_cases hfs : hasFreeSymbolsL f.sizes = true
          · intro g
            have hh : _method_size_stride v .size none = .ok none := by
              simp [_method_size_stride, TensorVar.metaOf, hsz, hex,
                FakeTensor.ofKind, hfs]
            obtain ⟨g', src, hfin⟩ := getattrFinish_shape_some rebind v
              (g.createProxy (.callMethodOp "size" [.tensor v])).1
              (.graphResult
                (g.createProxy (.callMethodOp "size" [.tensor v])).2
                (.sizesEx f.sizes))
            refine ⟨g', (.graphResult
                (g.createProxy (.callMethodOp "size" [.tensor v])).2
                (.sizesEx f.sizes), src), ?_, ?_⟩
            · rw [hstep g]
              simp only [stepShape, hsz, attrViaMethod, hcm g, hh,
                finishDispatch, defaultDispatch, inferExample, hex,
                wrap_fx_proxy, Except.map, stepThen]
              exact hfin
            · simp [shapeContents, expectedShape, hsz, hex, hfs]
          · have hfs' : hasFreeSymbolsL f.sizes = false := by
              simpa using hfs
            intro g
            have hh : _method_size_stride v .size none =
                .ok (some (RetVariable .size
                  (f.sizes.map PySymInt.intCast))) := by
              simp [_method_size_stride, TensorVar.metaOf, hsz, hex,
                FakeTensor.ofKind, hfs']
            obtain ⟨g', src, hfin⟩ := getattrFinish_shape_some rebind v g
              (RetVariable .size (f.sizes.map PySymInt.intCast))
            refine ⟨g', (RetVariable .size
                (f.sizes.map PySymInt.intCast), src), ?_, ?_⟩
            · rw [hstep g]
              simp only [stepShape, hsz, attrViaMethod, hcm g, hh,
                finishDispatch, Except.map, stepThen]
              exact hfin
            · simp [shapeContents, expectedShape, hsz, hex, hfs',
                RetVariable, List.map_map, Function.comp]

/-- C8: resolving the `shape` attribute twice in succession on the same
variable (threading the trace state of the first call into the second)
yields results with identical scalar contents, though the two result
variables may differ (e.g. wrap distinct proxy nodes). -/
theorem shape_attr_idempotent (cfg : Config)
    (rebind : Source → String → Option ConstValue) (g : GraphState)
    (v : TensorVar) (g1 : GraphState) (r1 : VT × Option Source)
    (h1 : var_getattr cfg rebind g v "shape" = (g1, .ok r1)) :
    ∃ g2 r2, var_getattr cfg rebind g1 v "shape" = (g2, .ok r2) ∧
      shapeContents r1.1 = shapeContents r2.1 := by
  rcases var_getattr_shape_contents cfg rebind v with h | h
  · obtain ⟨e, he⟩ := h g
    rw [h1] at he
    simp at he
  · obtain ⟨ga, ra, hra, hca⟩ := h g
    rw [h1] at hra
    obtain ⟨h1a, h2a⟩ := Prod.mk.injEq .. |>.mp hra
    injection h2a with h3
    obtain ⟨g2, r2, hr2, hc2⟩ := h g1
    refine ⟨g2, r2, hr2, ?_⟩
    rw [h3, hca, hc2]

/-- C8 witness: a statically known shape queried twice. -/
theorem shape_attr_idempotent_witness :
    ∃ g2 r2, var_getattr {} (fun _ _ => none) {}
        { size := some [2, 3] } "shape" = (g2, .ok r2) ∧
      shapeContents (VT.sizeVar [.intV 2, .intV 3]) =
        shapeContents r2.1 :=
  shape_attr_idempotent {} (fun _ _ => none) {} { size := some [2, 3] }
    {} (.sizeVar [.intV 2, .intV 3], none) rfl

end DynamoTensor
